import Mathlib

/-!
# GB28181 gateway: registration authentication, ban sweep and media ingestion

A shallow embedding of `handle.go` (`Authorization.Verify`, `Authorization.getDigest`,
`GB28181Config.OnRegister`) and `server.go` (`processTcpMediaConn`, `listenMediaUDP`,
`removeBanDevice`, `MaxRegisterCount`), followed by the theorems about them.

Conventions of the embedding:

* Go `string` is `String`; `[]byte(s)` is the UTF-8 encoding of `s`, a list of bytes
  (`Nat` below 256); `len(s)` is the number of those bytes.
* 32-bit words are `Nat` reduced modulo `2 ^ 32` after every addition and shift.
* The three `sync.Map` globals are association lists with unique keys (`AList`).
* Random strings and the clock are inputs of the handler.
* Replies sent with `tx.Respond`, log lines and calls on a publisher are returned as values.
-/

namespace GB28181

/-! ## `crypto/md5` and `fmt.Sprintf("%x", ...)`, as used by `getDigest` -/

namespace MD5

/-- Reduction of a natural number to a 32-bit word. -/
def w32 (x : Nat) : Nat := x % 2 ^ 32

/-- Bitwise complement of a 32-bit word. -/
def not32 (x : Nat) : Nat := Nat.xor (w32 x) 0xffffffff

/-- Left rotation of a 32-bit word by `c` bits. -/
def rotl (x c : Nat) : Nat :=
  Nat.lor (w32 (Nat.shiftLeft (w32 x) c)) (Nat.shiftRight (w32 x) (32 - c))

/-- Per-round shift amounts. -/
def shifts : List Nat :=
  [7, 12, 17, 22, 7, 12, 17, 22, 7, 12, 17, 22, 7, 12, 17, 22,
   5, 9, 14, 20, 5, 9, 14, 20, 5, 9, 14, 20, 5, 9, 14, 20,
   4, 11, 16, 23, 4, 11, 16, 23, 4, 11, 16, 23, 4, 11, 16, 23,
   6, 10, 15, 21, 6, 10, 15, 21, 6, 10, 15, 21, 6, 10, 15, 21]

/-- Per-round additive constants, `floor (2^32 * |sin (i + 1)|)`. -/
def sines : List Nat :=
  [0xd76aa478, 0xe8c7b756, 0x242070db, 0xc1bdceee, 0xf57c0faf, 0x4787c62a, 0xa8304613, 0xfd469501,
   0x698098d8, 0x8b44f7af, 0xffff5bb1, 0x895cd7be, 0x6b901122, 0xfd987193, 0xa679438e, 0x49b40821,
   0xf61e2562, 0xc040b340, 0x265e5a51, 0xe9b6c7aa, 0xd62f105d, 0x02441453, 0xd8a1e681, 0xe7d3fbc8,
   0x21e1cde6, 0xc33707d6, 0xf4d50d87, 0x455a14ed, 0xa9e3e905, 0xfcefa3f8, 0x676f02d9, 0x8d2a4c8a,
   0xfffa3942, 0x8771f681, 0x6d9d6122, 0xfde5380c, 0xa4beea44, 0x4bdecfa9, 0xf6bb4b60, 0xbebfbc70,
   0x289b7ec6, 0xeaa127fa, 0xd4ef3085, 0x04881d05, 0xd9d4d039, 0xe6db99e5, 0x1fa27cf8, 0xc4ac5665,
   0xf4292244, 0x432aff97, 0xab9423a7, 0xfc93a039, 0x655b59c3, 0x8f0ccc92, 0xffeff47d, 0x85845dd1,
   0x6fa87e4f, 0xfe2ce6e0, 0xa3014314, 0x4e0811a1, 0xf7537e82, 0xbd3af235, 0x2ad7d2bb, 0xeb86d391]

/-- Little-endian bytes of a number, `n` of them. -/
def bytesLE : Nat → Nat → List Nat
  | 0, _ => []
  | n + 1, x => x % 256 :: bytesLE n (x / 256)

/-- Message padding: a `0x80` byte, zeros up to 56 modulo 64, then the bit length on 8 bytes. -/
def pad (msg : List Nat) : List Nat :=
  msg ++ 0x80 :: List.replicate ((119 - msg.length % 64) % 64) 0
    ++ bytesLE 8 ((8 * msg.length) % 2 ^ 64)

/-- The `j`-th little-endian 32-bit word of a block. -/
def word (block : List Nat) (j : Nat) : Nat :=
  block.getD (4 * j) 0 + 256 * block.getD (4 * j + 1) 0
    + 65536 * block.getD (4 * j + 2) 0 + 16777216 * block.getD (4 * j + 3) 0

/-- The four chaining words. -/
structure Regs where
  a : Nat
  b : Nat
  c : Nat
  d : Nat
deriving DecidableEq, Repr

/-- Initial chaining value. -/
def init : Regs := ⟨0x67452301, 0xefcdab89, 0x98badcfe, 0x10325476⟩

/-- One of the 64 operations of the compression function. -/
def round (block : List Nat) (r : Regs) (i : Nat) : Regs :=
  let f :=
    if i < 16 then Nat.lor (Nat.land r.b r.c) (Nat.land (not32 r.b) r.d)
    else if i < 32 then Nat.lor (Nat.land r.d r.b) (Nat.land (not32 r.d) r.c)
    else if i < 48 then Nat.xor (Nat.xor r.b r.c) r.d
    else Nat.xor r.c (Nat.lor r.b (not32 r.d))
  let g :=
    if i < 16 then i
    else if i < 32 then (5 * i + 1) % 16
    else if i < 48 then (3 * i + 5) % 16
    else (7 * i) % 16
  let t := w32 (f + r.a + sines.getD i 0 + word block g)
  ⟨r.d, w32 (r.b + rotl t (shifts.getD i 0)), r.b, r.c⟩

/-- The compression function on one 64-byte block. -/
def compress (r : Regs) (block : List Nat) : Regs :=
  let s := (List.range 64).foldl (round block) r
  ⟨w32 (r.a + s.a), w32 (r.b + s.b), w32 (r.c + s.c), w32 (r.d + s.d)⟩

/-- The digest of a byte string: `md5.Sum`, 16 bytes. -/
def sum (msg : List Nat) : List Nat :=
  let p := pad msg
  let r := (List.range (p.length / 64)).foldl
    (fun r k => compress r ((p.drop (64 * k)).take 64)) init
  bytesLE 4 r.a ++ bytesLE 4 r.b ++ bytesLE 4 r.c ++ bytesLE 4 r.d

end MD5

/-- One lowercase hexadecimal digit. -/
def hexDigit (n : Nat) : Char := "0123456789abcdef".toList.getD n '0'

/-- The verb `%x` applied to a byte array: two lowercase hexadecimal digits per byte. -/
def sprintfHex : List Nat → List Char
  | [] => []
  | b :: bs => hexDigit (b / 16 % 16) :: hexDigit (b % 16) :: sprintfHex bs

/-- UTF-8 encoding of one code point. -/
def utf8EncodeChar (c : Char) : List Nat :=
  let v := c.toNat
  if v ≤ 0x7f then [v]
  else if v ≤ 0x7ff then [0xc0 + v / 64, 0x80 + v % 64]
  else if v ≤ 0xffff then [0xe0 + v / 4096, 0x80 + v / 64 % 64, 0x80 + v % 64]
  else [0xf0 + v / 262144, 0x80 + v / 4096 % 64, 0x80 + v / 64 % 64, 0x80 + v % 64]

/-- The bytes of a Go string, `[]byte(s)`. -/
def bytesOf (s : String) : List Nat := s.data.flatMap utf8EncodeChar

/-- Go `len(s)`: the number of bytes of a string. -/
def len (s : String) : Nat := (bytesOf s).length

/-! ## `handle.go`: the digest check -/

/-- The fields of `sip.Authorization` read by the handler (parsed by `sip.AuthFromValue`). -/
structure Authorization where
  Username : String
  Uri : String
  Response : String
  Algorithm : String
deriving DecidableEq, Repr

/-- Method `Authorization.getDigest`: both arms of the switch compute the MD5 hex digest. -/
def Authorization.getDigest (a : Authorization) (raw : String) : String :=
  if a.Algorithm = "MD5" then String.mk (sprintfHex (MD5.sum (bytesOf raw)))
  else String.mk (sprintfHex (MD5.sum (bytesOf raw)))

/-- Method `Authorization.Verify`. -/
def Authorization.Verify (a : Authorization) (username passwd realm nonce : String) : Bool :=
  let s1 := username ++ ":" ++ realm ++ ":" ++ passwd
  let r1 := a.getDigest s1
  let s2 := "REGISTER:" ++ a.Uri
  let r2 := a.getDigest s2
  if r1 = "" ∨ r2 = "" then false
  else
    let s3 := r1 ++ ":" ++ nonce ++ ":" ++ r2
    let r3 := a.getDigest s3
    decide (r3 = a.Response)

/-! ## The shared registries (`sync.Map`) -/

/-- A `sync.Map` keyed by strings: an association list with unique keys. -/
abbrev SyncMap (β : Type) := AList (fun _ : String => β)

namespace SyncMap

variable {β : Type}

/-- Method `sync.Map.Load`. -/
def Load (m : SyncMap β) (key : String) : Option β := m.lookup key

/-- Method `sync.Map.Store`. -/
def Store (m : SyncMap β) (key : String) (value : β) : SyncMap β := m.insert key value

/-- Method `sync.Map.Delete`. -/
def Delete (m : SyncMap β) (key : String) : SyncMap β := m.erase key

/-- Method `sync.Map.LoadOrStore`: the value in the map afterwards, whether it was already
there, and the map afterwards. -/
def LoadOrStore (m : SyncMap β) (key : String) (value : β) : β × Bool × SyncMap β :=
  match m.lookup key with
  | some actual => (actual, true, m)
  | none => (value, false, m.insert key value)

end SyncMap

/-! ## `server.go`: constants -/

/-- Constant `MaxRegisterCount`. -/
def MaxRegisterCount : Int := 3

/-! ## `handle.go`: the REGISTER handler -/

/-- The fields of `GB28181Config` read by the REGISTER handler. -/
structure GB28181Config where
  Username : String
  Password : String
  Realm : String
deriving DecidableEq, Repr

/-- What the handler reads of a `sip.Request`: the user part of the From address, the source
address and transport, and the `Authorization` headers in order of appearance. -/
structure Request where
  From : String
  Source : String
  Transport : String
  Authorization : List Authorization
deriving DecidableEq, Repr

/-- What the handler writes into a `sip.Response`: status line and the headers it sets itself
(the headers copied from the request by `sip.NewResponseFromRequest` are left out). -/
structure Response where
  StatusCode : Nat
  Reason : String
  ToTag : Option String
  Expires : Option Nat
  Date : Option String
  WWWAuthenticate : Option String
deriving DecidableEq, Repr

/-- Modelled from the spec: the `Device` record, declared outside the two source files. The
spec's data model gives it an identifier, a status, a source address, a transport and a
channel map; the channel map is kept as the list of its channel identifiers. -/
structure Device where
  ID : String
  Status : String
  NetAddr : String
  Transport : String
  Channels : List String
deriving DecidableEq, Repr

/-- The three global registries. -/
structure State where
  Devices : SyncMap Device
  DeviceNonce : SyncMap String
  DeviceRegisterCount : SyncMap Int

/-- Values the handler draws from outside: `utils.RandNumString(32)`,
`utils.RandNumString(9)` and `time.Now().Format(TIME_LAYOUT)`. -/
structure Env where
  RandNumString32 : String
  RandNumString9 : String
  Now : String
deriving DecidableEq, Repr

/-- Modelled from the spec: `GB28181Config.StoreDevice` is not in the two source files. The
spec's `registerOrRecover` for an unknown identifier "constructs and inserts a new Device in
ONLINE status". Returns the device and the registry afterwards. -/
def StoreDevice (devices : SyncMap Device) (id : String) (req : Request) :
    Device × SyncMap Device :=
  let d : Device := ⟨id, "ONLINE", req.Source, req.Transport, []⟩
  (d, devices.Store id d)

/-- Modelled from the spec: `GB28181Config.RecoverDevice` is not in the two source files. The
spec's `registerOrRecover` for a known identifier "restores transport/address bindings from
the new request without discarding channel/catalog state". -/
def RecoverDevice (d : Device) (req : Request) : Device :=
  ⟨d.ID, d.Status, req.Source, req.Transport, d.Channels⟩

/-- The effects of one call of the handler: the registries afterwards, the reply handed to
`tx.Respond` (if any), and the device whose `syncChannels` is started with `go` (if any). -/
structure Outcome where
  state : State
  reply : Option Response
  syncChannels : Option Device

/-- Contents of the `WWW-Authenticate` header. -/
def wwwAuthenticate (realm nonce : String) : String :=
  "Digest realm=\"" ++ realm ++ "\",algorithm=" ++ "MD5" ++ ",nonce=\"" ++ nonce ++ "\""

/-- Lines 97 to 134 of `OnRegister`: the reply once `passAuth` is settled. -/
def OnRegister.respond (c : GB28181Config) (env : Env) (req : Request) (id : String)
    (passAuth : Bool) (st : State) : Outcome :=
  if passAuth then
    let (d, devices) :=
      match st.Devices.Load id with
      | some v =>
        -- the map holds a pointer: the re-bound device is the one in the registry
        let d := RecoverDevice v req
        (d, st.Devices.Store id d)
      | none => StoreDevice st.Devices id req
    let resp : Response :=
      ⟨200, "OK", some env.RandNumString9, some 3600, some env.Now, none⟩
    ⟨⟨devices, st.DeviceNonce.Delete id, st.DeviceRegisterCount.Delete id⟩, some resp, some d⟩
  else
    let (_nonce, _, nonces) := st.DeviceNonce.LoadOrStore id env.RandNumString32
    let response : Response :=
      ⟨401, "Unauthorized", none, none, none, some (wwwAuthenticate c.Realm _nonce)⟩
    ⟨⟨st.Devices, nonces, st.DeviceRegisterCount⟩, some response, none⟩

/-- Method `GB28181Config.OnRegister`. -/
def OnRegister (c : GB28181Config) (env : Env) (st : State) (req : Request) : Outcome :=
  let id := req.From
  if len id ≠ 20 then ⟨st, none, none⟩
  else if c.Username = "" ∧ c.Password = "" then OnRegister.respond c env req id true st
  else
    match req.Authorization with
    | auth :: _ =>
      let username := if auth.Username = id then id else c.Username
      let (dc, ok, counts) := st.DeviceRegisterCount.LoadOrStore id 1
      if ok = true ∧ dc > MaxRegisterCount then
        ⟨⟨st.Devices, st.DeviceNonce, counts⟩, some ⟨403, "Forbidden", none, none, none, none⟩,
          none⟩
      else
        match st.DeviceNonce.Load id with
        | some _nonce =>
          if auth.Verify username c.Password c.Realm _nonce = true then
            OnRegister.respond c env req id true ⟨st.Devices, st.DeviceNonce, counts⟩
          else
            OnRegister.respond c env req id false
              ⟨st.Devices, st.DeviceNonce, counts.Store id (dc + 1)⟩
        | none =>
          OnRegister.respond c env req id false
            ⟨st.Devices, st.DeviceNonce, counts.Store id (dc + 1)⟩
    | [] => OnRegister.respond c env req id false st

/-! ## `server.go`: the ban sweep -/

/-- One tick of `removeBanDevice`: `DeviceRegisterCount.Range` with the callback that deletes
the visited key when its value exceeds `MaxRegisterCount`. -/
def removeBanDevice.tick (counts : SyncMap Int) : SyncMap Int :=
  counts.entries.foldl
    (fun m e => if e.2 > MaxRegisterCount then m.Delete e.1 else m) counts

/-! ## `server.go`: media ingestion -/

/-- The fields of `rtp.Packet` that a decoded packet carries to its consumer. `Payload` is a
Go slice of the buffer handed to `Unmarshal`: `Payload` holds its bytes as they were when
the packet was decoded and `PayloadStart` is the index in that buffer where it begins. -/
structure Packet where
  SSRC : Nat
  SequenceNumber : Nat
  Timestamp : Nat
  PayloadType : Nat
  Marker : Bool
  Payload : List Nat
  PayloadStart : Nat
deriving DecidableEq, Repr

/-- The zero value of `rtp.Packet` (`var rtpPacket rtp.Packet`). -/
def Packet.zero : Packet := ⟨0, 0, 0, 0, false, [], 0⟩

/-- The packet as a consumer reads it while the receive buffer holds `buf` (bytes past the
end of `buf` are zero): the `Payload` slice shows the bytes now at its place. -/
def Packet.view (p : Packet) (buf : List Nat) : Packet :=
  ⟨p.SSRC, p.SequenceNumber, p.Timestamp, p.PayloadType, p.Marker,
    (List.range p.Payload.length).map (fun i => buf.getD (p.PayloadStart + i) 0),
    p.PayloadStart⟩

/-- The library method `rtp.Packet.Unmarshal` as the listeners see it: given the contents of
`rtpPacket` before the call and the buffer, the contents of `rtpPacket` after the call and
whether an error was returned. The listeners are stated for an arbitrary such decoder. -/
abbrev Decoder := Packet → List Nat → Packet × Bool

/-- A consumer registered in `publishers`: its stream path and whether `Publisher.Err()`
is non-nil. -/
structure GBPublisher where
  StreamPath : String
  Err : Bool
deriving DecidableEq, Repr

/-- The registry `c.publishers`, read with `Get`; `none` is the nil pointer. -/
abbrev Publishers := Nat → Option GBPublisher

/-- What a listener does besides reading: log lines, the two calls on a publisher, and
closing the connection. -/
inductive Event where
  | logError (msg : String)
  | logInfo (msg : String) (ssrc : Nat)
  | writeDump (publisher : GBPublisher) (ps : List Nat)
  | PushPS (publisher : GBPublisher) (rtpPacket : Packet)
  | Close
deriving DecidableEq, Repr

/-- Function `io.ReadFull` on a finite stream that ends with end-of-file: the `n` bytes read
and the rest of the stream, or `none` for an error (end of file before `n` bytes). -/
def readFull (n : Nat) (stream : List Nat) : Option (List Nat × List Nat) :=
  if stream.length < n then none else some (stream.take n, stream.drop n)

/-- Function `binary.BigEndian.Uint16`. -/
def bigEndianUint16 (b : List Nat) : Nat := b.getD 0 0 % 256 * 256 + b.getD 1 0 % 256

/-- The `for err == nil` loop of `processTcpMediaConn`, one iteration per unit of fuel;
`none` when the fuel runs out before the loop returns. -/
def processTcpMediaConn.loop (Unmarshal : Decoder) (publishers : Publishers) :
    Nat → Packet → List Nat → Option (List Event)
  | 0, _, _ => none
  | fuel + 1, rtpPacket, conn =>
    match readFull 2 conn with
    | none => some []
    | some (dumpLen, conn1) =>
      match readFull (bigEndianUint16 dumpLen) conn1 with
      | none => some []
      | some (ps, conn2) =>
        let (pkt, err) := Unmarshal rtpPacket ps
        let now : List Event :=
          if err then [Event.logError "gb28181 decode rtp error:"]
          else
            match publishers pkt.SSRC with
            | some publisher =>
              if publisher.Err = false then
                [Event.writeDump publisher ps, Event.PushPS publisher pkt]
              else [Event.logInfo "gb28181 publisher not found" pkt.SSRC]
            | none => [Event.logInfo "gb28181 publisher not found" pkt.SSRC]
        (processTcpMediaConn.loop Unmarshal publishers fuel pkt conn2).map (fun l => now ++ l)

/-- Method `GB28181Config.processTcpMediaConn` on a connection that delivers the bytes
`conn` and then end-of-file. Every iteration that does not return consumes at least two
bytes, so `conn.length + 1` iterations are enough; the deferred `conn.Close()` runs last. -/
def processTcpMediaConn (Unmarshal : Decoder) (publishers : Publishers) (conn : List Nat) :
    Option (List Event) :=
  (processTcpMediaConn.loop Unmarshal publishers (conn.length + 1) Packet.zero conn).map
    (fun l => l ++ [Event.Close])

/-- Size of the datagram buffer in `listenMediaUDP`. -/
def networkBuffer : Nat := 1048576

/-- The receive loop of `listenMediaUDP` on a socket that delivers the datagrams in the list
and then a read error. `bufUDP` is the part of the receive buffer written so far (the rest
of it is zero): `ReadFromUDP` overwrites its first bytes with the datagram, `ps` is that
part of the buffer, and the packet handed to `PushPS` is the shared `rtpPacket`, whose
`Payload` is a slice of the buffer as it is now. -/
def listenMediaUDP.loop (Unmarshal : Decoder) (publishers : Publishers) :
    List Nat → Packet → List (List Nat) → List Event
  | _, _, [] => []
  | bufUDP, rtpPacket, datagram :: rest =>
    let ps := datagram.take networkBuffer
    let bufUDP1 := ps ++ bufUDP.drop ps.length
    let (pkt, err) := Unmarshal rtpPacket ps
    let logged : List Event := if err then [Event.logError "Decode rtp error:"] else []
    let forwarded : List Event :=
      match publishers pkt.SSRC with
      | some publisher =>
        if publisher.Err = false then
          [Event.writeDump publisher ps, Event.PushPS publisher (pkt.view bufUDP1)]
        else []
      | none => []
    logged ++ forwarded ++ listenMediaUDP.loop Unmarshal publishers bufUDP1 pkt rest

/-- Method `GB28181Config.listenMediaUDP` once the socket is open. -/
def listenMediaUDP (Unmarshal : Decoder) (publishers : Publishers)
    (datagrams : List (List Nat)) : List Event :=
  listenMediaUDP.loop Unmarshal publishers [] Packet.zero datagrams

/-- The header fields of a buffer of at least 12 bytes, written over the packet: marker,
payload type, sequence number, timestamp and SSRC, big-endian; the payload is kept. -/
def rtpHeader (p : Packet) (buf : List Nat) : Packet :=
  ⟨((buf.getD 8 0 * 256 + buf.getD 9 0) * 256 + buf.getD 10 0) * 256 + buf.getD 11 0,
    buf.getD 2 0 * 256 + buf.getD 3 0,
    ((buf.getD 4 0 * 256 + buf.getD 5 0) * 256 + buf.getD 6 0) * 256 + buf.getD 7 0,
    buf.getD 1 0 % 128, decide (buf.getD 1 0 / 128 % 2 = 1), p.Payload, p.PayloadStart⟩

/-- The payload step of `rtp.Packet.Unmarshal`, once the header of `n` bytes is read into
`h`: with the padding bit set the last byte counts the padding bytes, which are cut off the
end; a buffer whose end falls before `n` is refused, the payload of `h` being kept. -/
def rtpPayload (h : Packet) (buf : List Nat) (n : Nat) : Packet × Bool :=
  let stop :=
    if buf.getD 0 0 / 32 % 2 = 1 then buf.length - buf.getD (buf.length - 1) 0
    else buf.length
  if stop < n then (h, true)
  else
    (⟨h.SSRC, h.SequenceNumber, h.Timestamp, h.PayloadType, h.Marker,
      (buf.take stop).drop n, n⟩, false)

/-- The decoder used for concrete runs, after `rtp.Packet.Unmarshal` of `pion/rtp`. A buffer
shorter than the 12-byte header, or too short for its CSRC list, is refused before the
fields kept here are written. Otherwise the header fields are written; with the extension
bit set, four more bytes and the announced number of 32-bit words are skipped, the buffer
being refused when it is too short for them (the extension is skipped whole whatever its
profile); then the payload is cut as in `rtpPayload`. -/
def rtpUnmarshal : Decoder := fun p buf =>
  if buf.length < 12 then (p, true)
  else
    let n := 12 + buf.getD 0 0 % 16 * 4
    if buf.length < n then (p, true)
    else
      let h := rtpHeader p buf
      if buf.getD 0 0 / 16 % 2 = 1 then
        if buf.length < n + 4 then (h, true)
        else
          let m := n + 4 + (buf.getD (n + 2) 0 * 256 + buf.getD (n + 3) 0) * 4
          if buf.length < m then (h, true) else rtpPayload h buf m
      else rtpPayload h buf n

/-- Pushes of a trace, in order: the consumer and the packet handed to `PushPS`. -/
def pushes : List Event → List (GBPublisher × Packet)
  | [] => []
  | Event.PushPS publisher pkt :: l => (publisher, pkt) :: pushes l
  | _ :: l => pushes l

/-- Dump writes of a trace, in order: the consumer and the bytes handed to `writeDump`. -/
def dumps : List Event → List (GBPublisher × List Nat)
  | [] => []
  | Event.writeDump publisher ps :: l => (publisher, ps) :: dumps l
  | _ :: l => dumps l

/-- A TCP frame on the wire: the two-byte big-endian length, then the bytes. -/
def frame (ps : List Nat) : List Nat := ps.length / 256 % 256 :: ps.length % 256 :: ps

/-- The packet variable after each of the buffers is decoded in turn, with the error flag. -/
def decodeSeq (Unmarshal : Decoder) : Packet → List (List Nat) → List (Packet × Bool)
  | _, [] => []
  | p, ps :: rest => Unmarshal p ps :: decodeSeq Unmarshal (Unmarshal p ps).1 rest


/-! ## Sequences of REGISTER requests -/

/-- The user name the handler verifies with: the id when the header states the id, the
configured account name otherwise. -/
def resolvedUsername (c : GB28181Config) (auth : Authorization) (id : String) : String :=
  if auth.Username = id then id else c.Username

/-- The request carries an `Authorization` header, its id is not locked out in `st`, and the
check of `OnRegister` line 89 fails in `st`: no nonce is stored for the id, or `Verify`
against the stored nonce is false. -/
def failsVerification (c : GB28181Config) (st : State) (req : Request) : Bool :=
  match req.Authorization with
  | [] => false
  | auth :: _ =>
    (match st.DeviceRegisterCount.Load req.From with
      | some dc => decide (dc ≤ MaxRegisterCount)
      | none => true) &&
    (match st.DeviceNonce.Load req.From with
      | some nonce => !auth.Verify (resolvedUsername c auth req.From) c.Password c.Realm nonce
      | none => true)

/-- The registries after the requests are handled one after the other. -/
def registerAll (c : GB28181Config) : State → List (Env × Request) → State
  | st, [] => st
  | st, (env, req) :: rest => registerAll c (OnRegister c env st req).state rest

/-- Every request of the sequence is from `id` and fails verification in the registries it
arrives in. -/
def allFail (c : GB28181Config) (id : String) : State → List (Env × Request) → Bool
  | _, [] => true
  | st, (env, req) :: rest =>
    decide (req.From = id) && failsVerification c st req &&
      allFail c id (OnRegister c env st req).state rest

/-! ## Examples used by the concrete runs -/

/-- A configuration with credentials. -/
def exampleConfig : GB28181Config := ⟨"admin", "secret", "3402000000"⟩

/-- Values drawn by one call of the handler. -/
def exampleEnv : Env := ⟨"11112222333344445555666677778888", "123456789", "2024-01-01T00:00:00"⟩

/-- A device identifier of 20 characters. -/
def exampleId : String := "34020000001320000001"

/-- A REGISTER without an `Authorization` header. -/
def exampleBare : Request := ⟨exampleId, "10.0.0.5:5060", "udp", []⟩

/-- A REGISTER whose `Authorization` carries a wrong response. -/
def exampleWrong : Request :=
  ⟨exampleId, "10.0.0.5:5060", "udp",
    [⟨exampleId, "sip:34020000002000000001@3402000000", "00000000000000000000000000000000", "MD5"⟩]⟩

/-- A REGISTER whose `Authorization` answers the example nonce with the right password. -/
def exampleRight : Request :=
  ⟨exampleId, "10.0.0.5:5060", "udp",
    [⟨exampleId, "sip:34020000002000000001@3402000000", "6e344b5f7f6083ad4c858d61ef9b8825", "MD5"⟩]⟩

/-- Registries in which the example device has been challenged and has no counter. -/
def exampleChallenged : State :=
  ⟨∅, (∅ : SyncMap String).Store exampleId "11112222333344445555666677778888", ∅⟩

/-- Registries with nothing stored. -/
def exampleEmpty : State := ⟨∅, ∅, ∅⟩

/-- Registries in which the example device is locked out: its counter is 4. -/
def exampleLocked : State := ⟨∅, ∅, (∅ : SyncMap Int).Store exampleId 4⟩

/-- A 14-byte RTP packet: version 2, payload type 96, sequence number 1, timestamp 5, the
given SSRC (below 256) and two payload bytes. -/
def examplePacket (ssrc : Nat) : List Nat := [128, 96, 0, 1, 0, 0, 0, 5, 0, 0, 0, ssrc, 170, 187]

/-- A consumer registry with one live consumer, for SSRC 7. -/
def examplePublishers : Publishers := fun ssrc => if ssrc = 7 then some ⟨"live/7", false⟩ else none

/-- A counter map with one device above the maximum and one below. -/
def exampleCounts : SyncMap Int :=
  ((∅ : SyncMap Int).Store "34020000001320000001" 4).Store "34020000001320000002" 2

/-! ## Lemmas on the digest -/

theorem MD5.sum_ne_nil (msg : List Nat) : MD5.sum msg ≠ [] := by
  simp [MD5.sum, MD5.bytesLE]

theorem MD5.bytesLE_length (n x : Nat) : (MD5.bytesLE n x).length = n := by
  induction n generalizing x with
  | zero => rfl
  | succ n ih => simp [MD5.bytesLE, ih]

theorem MD5.sum_length (msg : List Nat) : (MD5.sum msg).length = 16 := by
  simp [MD5.sum, MD5.bytesLE_length]

theorem sprintfHex_length (bs : List Nat) : (sprintfHex bs).length = 2 * bs.length := by
  induction bs with
  | nil => rfl
  | cons b bs ih => simp only [sprintfHex, List.length_cons, ih]; omega

theorem hexDigit_lowercase (n : Nat) (h : n < 16) : hexDigit n ∈ "0123456789abcdef".data := by
  interval_cases n <;> decide

theorem sprintfHex_lowercase (bs : List Nat) :
    ∀ ch ∈ sprintfHex bs, ch ∈ "0123456789abcdef".data := by
  induction bs with
  | nil => intro ch h; cases h
  | cons b bs ih =>
    intro ch h
    simp only [sprintfHex, List.mem_cons] at h
    rcases h with rfl | rfl | h
    · exact hexDigit_lowercase _ (Nat.mod_lt _ (by decide))
    · exact hexDigit_lowercase _ (Nat.mod_lt _ (by decide))
    · exact ih ch h

theorem getDigest_eq (a : Authorization) (raw : String) :
    a.getDigest raw = String.mk (sprintfHex (MD5.sum (bytesOf raw))) := by
  unfold Authorization.getDigest
  split <;> rfl

theorem getDigest_ne_empty (a : Authorization) (raw : String) : a.getDigest raw ≠ "" := by
  rw [getDigest_eq]
  intro h
  have h2 : sprintfHex (MD5.sum (bytesOf raw)) = [] := by
    have := congrArg String.data h
    simpa using this
  cases hs : MD5.sum (bytesOf raw) with
  | nil => exact MD5.sum_ne_nil _ hs
  | cons b bs => rw [hs] at h2; simp [sprintfHex] at h2

set_option maxRecDepth 100000 in
/-- The digest of the empty string, as in RFC 1321. -/
theorem MD5.sum_empty :
    String.mk (sprintfHex (MD5.sum (bytesOf ""))) = "d41d8cd98f00b204e9800998ecf8427e" := by
  rfl

set_option maxRecDepth 100000 in
/-- The digest of "abc", as in RFC 1321. -/
theorem MD5.sum_abc :
    String.mk (sprintfHex (MD5.sum (bytesOf "abc"))) = "900150983cd24fb0d6963f7d28e17f72" := by
  rfl

set_option maxRecDepth 100000 in
/-- The digest of a message of two blocks, as in RFC 1321. -/
theorem MD5.sum_digits :
    String.mk (sprintfHex (MD5.sum (bytesOf
      "12345678901234567890123456789012345678901234567890123456789012345678901234567890")))
      = "57edf4a22be3c955ac49da2e2107b67a" := by
  rfl

/-! ## Lemmas on the registries -/

namespace SyncMap

variable {β : Type}

@[simp] theorem Load_Store_self (m : SyncMap β) (k : String) (v : β) :
    (m.Store k v).Load k = some v := by
  simp [Load, Store]

@[simp] theorem Load_Store_of_ne (m : SyncMap β) {k k' : String} (v : β) (h : k' ≠ k) :
    (m.Store k v).Load k' = m.Load k' := by
  simp [Load, Store, AList.lookup_insert_ne h]

@[simp] theorem Load_Delete_self (m : SyncMap β) (k : String) : (m.Delete k).Load k = none := by
  simp [Load, Delete]

@[simp] theorem Load_Delete_of_ne (m : SyncMap β) {k k' : String} (h : k' ≠ k) :
    (m.Delete k).Load k' = m.Load k' := by
  simp [Load, Delete, AList.lookup_erase_ne h]

theorem LoadOrStore_of_some (m : SyncMap β) (k : String) (v x : β) (h : m.Load k = some x) :
    m.LoadOrStore k v = (x, true, m) := by
  unfold Load at h
  simp [LoadOrStore, h]

theorem LoadOrStore_of_none (m : SyncMap β) (k : String) (v : β) (h : m.Load k = none) :
    m.LoadOrStore k v = (v, false, m.Store k v) := by
  unfold Load at h
  simp [LoadOrStore, h, Store]

end SyncMap

/-! ## Theorems -/

/-- C1: `Verify` returns true exactly when the claimed response equals
digest(digest(username:realm:password) : nonce : digest(REGISTER:uri)), the parts joined with
a colon, where the digest of a string is the lowercase hexadecimal text of the MD5 sum of its
bytes; and that is what `getDigest` computes, whatever the algorithm named in the header. -/
theorem verify_iff_response_eq_digest (a : Authorization)
    (username passwd realm nonce : String) :
    (a.Verify username passwd realm nonce = true ↔
      a.Response =
        String.mk (sprintfHex (MD5.sum (bytesOf
          (String.mk (sprintfHex (MD5.sum (bytesOf (username ++ ":" ++ realm ++ ":" ++ passwd))))
            ++ ":" ++ nonce ++ ":"
            ++ String.mk (sprintfHex (MD5.sum (bytesOf ("REGISTER:" ++ a.Uri))))))))) ∧
    (∀ raw : String, a.getDigest raw = String.mk (sprintfHex (MD5.sum (bytesOf raw)))) ∧
    (∀ raw : String, (a.getDigest raw).length = 32 ∧
      ∀ ch ∈ (a.getDigest raw).data, ch ∈ "0123456789abcdef".data) := by
  refine ⟨?_, getDigest_eq a, fun raw => ?_⟩
  · have hne : ∀ raw, ¬ a.getDigest raw = "" := getDigest_ne_empty a
    unfold Authorization.Verify
    simp only [hne, or_self, if_false, decide_eq_true_eq]
    simp only [getDigest_eq]
    exact eq_comm
  · rw [getDigest_eq]
    refine ⟨?_, fun ch hch => sprintfHex_lowercase _ ch hch⟩
    show (sprintfHex (MD5.sum (bytesOf raw))).length = 32
    rw [sprintfHex_length, MD5.sum_length]

/-- C2, counterexample: with credentials configured and the counter of the device at 4, a
REGISTER without an `Authorization` header is answered 401, and a nonce is stored for the
device where none was. -/
theorem onRegister_locked_out_without_header :
    ¬ (exampleConfig.Username = "" ∧ exampleConfig.Password = "") ∧
    len exampleBare.From = 20 ∧
    exampleLocked.DeviceRegisterCount.Load exampleBare.From = some 4 ∧
    (4 : Int) > MaxRegisterCount ∧
    (OnRegister exampleConfig exampleEnv exampleLocked exampleBare).reply =
      some ⟨401, "Unauthorized", none, none, none,
        some "Digest realm=\"3402000000\",algorithm=MD5,nonce=\"11112222333344445555666677778888\""⟩ ∧
    exampleLocked.DeviceNonce.Load exampleBare.From = none ∧
    (OnRegister exampleConfig exampleEnv exampleLocked exampleBare).state.DeviceNonce.Load
      exampleBare.From = some "11112222333344445555666677778888" := by
  decide

/-- C2, amended: with credentials configured, a REGISTER with a 20-character id that carries
an `Authorization` header, whatever its contents, and whose stored counter exceeds
`MaxRegisterCount` is answered 403 Forbidden, and the three registries are left as they
were. -/
theorem onRegister_locked_out_forbidden (c : GB28181Config) (env : Env) (st : State)
    (req : Request) (auth : Authorization) (rest : List Authorization) (dc : Int)
    (hcred : ¬ (c.Username = "" ∧ c.Password = ""))
    (hlen : len req.From = 20)
    (hauth : req.Authorization = auth :: rest)
    (hdc : st.DeviceRegisterCount.Load req.From = some dc)
    (hgt : dc > MaxRegisterCount) :
    (OnRegister c env st req).reply = some ⟨403, "Forbidden", none, none, none, none⟩ ∧
    (OnRegister c env st req).state.DeviceNonce = st.DeviceNonce ∧
    (OnRegister c env st req).state.DeviceRegisterCount = st.DeviceRegisterCount ∧
    (OnRegister c env st req).state.Devices = st.Devices := by
  unfold OnRegister
  simp only [hlen, hauth, SyncMap.LoadOrStore_of_some _ _ _ _ hdc, hcred, hgt]
  simp

/-- C2, amended, at the locked-out example with a wrong response in the header. -/
theorem onRegister_locked_out_forbidden_witness :
    (OnRegister exampleConfig exampleEnv exampleLocked exampleWrong).reply =
        some ⟨403, "Forbidden", none, none, none, none⟩ ∧
    (OnRegister exampleConfig exampleEnv exampleLocked exampleWrong).state.DeviceNonce =
        exampleLocked.DeviceNonce ∧
    (OnRegister exampleConfig exampleEnv exampleLocked exampleWrong).state.DeviceRegisterCount =
        exampleLocked.DeviceRegisterCount ∧
    (OnRegister exampleConfig exampleEnv exampleLocked exampleWrong).state.Devices =
        exampleLocked.Devices :=
  onRegister_locked_out_forbidden exampleConfig exampleEnv exampleLocked exampleWrong
    ⟨exampleId, "sip:34020000002000000001@3402000000", "00000000000000000000000000000000", "MD5"⟩
    [] 4 (by decide) (by decide) rfl (by decide) (by decide)


/-! ### REGISTER: shape of the outcome -/

/-- The text of the `WWW-Authenticate` header: the realm and the nonce between quotes. -/
theorem wwwAuthenticate_text (realm nonce : String) :
    wwwAuthenticate realm nonce =
      "Digest realm=\"" ++ realm ++ "\",algorithm=MD5,nonce=\"" ++ nonce ++ "\"" := by
  have e : ("\",algorithm=" : String) ++ "MD5" ++ ",nonce=\"" = "\",algorithm=MD5,nonce=\"" := by
    decide
  rw [← e]
  simp only [wwwAuthenticate, String.append_assoc]

theorem respond_true (c : GB28181Config) (env : Env) (req : Request) (id : String)
    (st : State) :
    (OnRegister.respond c env req id true st).reply =
        some ⟨200, "OK", some env.RandNumString9, some 3600, some env.Now, none⟩ ∧
    (∃ d, (OnRegister.respond c env req id true st).state.Devices.Load id = some d) ∧
    (OnRegister.respond c env req id true st).state.DeviceNonce = st.DeviceNonce.Delete id ∧
    (OnRegister.respond c env req id true st).state.DeviceRegisterCount =
        st.DeviceRegisterCount.Delete id := by
  unfold OnRegister.respond
  cases h : st.Devices.Load id <;> simp [h, StoreDevice]

theorem respond_false (c : GB28181Config) (env : Env) (req : Request) (id : String)
    (st : State) :
    (OnRegister.respond c env req id false st).reply =
        some ⟨401, "Unauthorized", none, none, none,
          some (wwwAuthenticate c.Realm ((st.DeviceNonce.Load id).getD env.RandNumString32))⟩ ∧
    (OnRegister.respond c env req id false st).state.DeviceNonce.Load id =
        some ((st.DeviceNonce.Load id).getD env.RandNumString32) ∧
    (OnRegister.respond c env req id false st).state.Devices = st.Devices ∧
    (OnRegister.respond c env req id false st).state.DeviceRegisterCount =
        st.DeviceRegisterCount := by
  unfold OnRegister.respond
  cases h : st.DeviceNonce.Load id with
  | none => simp [SyncMap.LoadOrStore_of_none _ _ _ h]
  | some n => simp [SyncMap.LoadOrStore_of_some _ _ _ _ h, h]

/-- The outcome of the handler, by the way it ends. -/
theorem onRegister_cases (c : GB28181Config) (env : Env) (st : State) (req : Request) :
    (len req.From ≠ 20 ∧ OnRegister c env st req = ⟨st, none, none⟩) ∨
    (len req.From = 20 ∧ ¬ (c.Username = "" ∧ c.Password = "") ∧
      (∃ auth rest dc, req.Authorization = auth :: rest ∧
        st.DeviceRegisterCount.Load req.From = some dc ∧ dc > MaxRegisterCount) ∧
      OnRegister c env st req =
        ⟨st, some ⟨403, "Forbidden", none, none, none, none⟩, none⟩) ∨
    (len req.From = 20 ∧
      ((c.Username = "" ∧ c.Password = "") ∨ ∃ nonce, st.DeviceNonce.Load req.From = some nonce) ∧
      ∃ counts, OnRegister c env st req =
        OnRegister.respond c env req req.From true ⟨st.Devices, st.DeviceNonce, counts⟩) ∨
    (len req.From = 20 ∧ ¬ (c.Username = "" ∧ c.Password = "") ∧ ∃ counts,
      OnRegister c env st req =
        OnRegister.respond c env req req.From false ⟨st.Devices, st.DeviceNonce, counts⟩) := by
  by_cases hlen : len req.From = 20
  swap
  · left; exact ⟨hlen, by simp [OnRegister, hlen]⟩
  right
  by_cases hcred : c.Username = "" ∧ c.Password = ""
  · right; left
    exact ⟨hlen, Or.inl hcred, st.DeviceRegisterCount, by simp [OnRegister, hlen, hcred]⟩
  cases hauth : req.Authorization with
  | nil =>
    right; right
    exact ⟨hlen, hcred, st.DeviceRegisterCount, by simp [OnRegister, hlen, hcred, hauth]⟩
  | cons auth rest =>
    cases hdc : st.DeviceRegisterCount.Load req.From with
    | some dc =>
      by_cases hgt : dc > MaxRegisterCount
      · left
        refine ⟨hlen, hcred, ⟨auth, rest, dc, rfl, rfl, hgt⟩, ?_⟩
        unfold OnRegister
        simp only [hlen, hauth, SyncMap.LoadOrStore_of_some _ _ _ _ hdc, hcred, hgt]
        simp
      · right
        cases hn : st.DeviceNonce.Load req.From with
        | none =>
          right
          refine ⟨hlen, hcred, st.DeviceRegisterCount.Store req.From (dc + 1), ?_⟩
          unfold OnRegister
          simp only [hlen, hauth, SyncMap.LoadOrStore_of_some _ _ _ _ hdc, hcred, hgt, hn]
          simp
        | some nonce =>
          by_cases hv : auth.Verify (if auth.Username = req.From then req.From else c.Username)
              c.Password c.Realm nonce = true
          · left
            refine ⟨hlen, Or.inr ⟨nonce, rfl⟩, st.DeviceRegisterCount, ?_⟩
            unfold OnRegister
            simp only [hlen, hauth, SyncMap.LoadOrStore_of_some _ _ _ _ hdc, hcred, hgt, hn, hv]
            simp
          · right
            refine ⟨hlen, hcred, st.DeviceRegisterCount.Store req.From (dc + 1), ?_⟩
            unfold OnRegister
            simp only [hlen, hauth, SyncMap.LoadOrStore_of_some _ _ _ _ hdc, hcred, hgt, hn, hv]
            simp
    | none =>
      right
      cases hn : st.DeviceNonce.Load req.From with
      | none =>
        right
        refine ⟨hlen, hcred, (st.DeviceRegisterCount.Store req.From 1).Store req.From (1 + 1), ?_⟩
        unfold OnRegister
        simp only [hlen, hauth, SyncMap.LoadOrStore_of_none _ _ _ hdc, hcred, hn]
        simp
      | some nonce =>
        by_cases hv : auth.Verify (if auth.Username = req.From then req.From else c.Username)
            c.Password c.Realm nonce = true
        · left
          refine ⟨hlen, Or.inr ⟨nonce, rfl⟩, st.DeviceRegisterCount.Store req.From 1, ?_⟩
          unfold OnRegister
          simp only [hlen, hauth, SyncMap.LoadOrStore_of_none _ _ _ hdc, hcred, hn, hv]
          simp
        · right
          refine ⟨hlen, hcred, (st.DeviceRegisterCount.Store req.From 1).Store req.From (1 + 1), ?_⟩
          unfold OnRegister
          simp only [hlen, hauth, SyncMap.LoadOrStore_of_none _ _ _ hdc, hcred, hn, hv]
          simp


/-- C3: with credentials configured, a REGISTER with a 20-character id and an
`Authorization` header, whose id is not locked out, for which a nonce is stored and `Verify`
succeeds against it with the resolved user name, is answered 200 OK with Expires 3600;
afterwards the registry holds a device for the id, and neither a nonce nor a counter is
stored for the id. -/
theorem onRegister_verified_ok (c : GB28181Config) (env : Env) (st : State) (req : Request)
    (auth : Authorization) (rest : List Authorization) (nonce : String)
    (hcred : ¬ (c.Username = "" ∧ c.Password = ""))
    (hlen : len req.From = 20)
    (hauth : req.Authorization = auth :: rest)
    (hfree : ∀ dc, st.DeviceRegisterCount.Load req.From = some dc → dc ≤ MaxRegisterCount)
    (hnonce : st.DeviceNonce.Load req.From = some nonce)
    (hverify : auth.Verify (if auth.Username = req.From then req.From else c.Username)
      c.Password c.Realm nonce = true) :
    (OnRegister c env st req).reply =
        some ⟨200, "OK", some env.RandNumString9, some 3600, some env.Now, none⟩ ∧
    (∃ d, (OnRegister c env st req).state.Devices.Load req.From = some d) ∧
    (OnRegister c env st req).state.DeviceNonce.Load req.From = none ∧
    (OnRegister c env st req).state.DeviceRegisterCount.Load req.From = none := by
  have key : ∃ counts, OnRegister c env st req =
      OnRegister.respond c env req req.From true ⟨st.Devices, st.DeviceNonce, counts⟩ := by
    cases hdc : st.DeviceRegisterCount.Load req.From with
    | some dc =>
      have hgt : ¬ dc > MaxRegisterCount := not_lt.mpr (hfree dc hdc)
      refine ⟨st.DeviceRegisterCount, ?_⟩
      unfold OnRegister
      simp only [hlen, hauth, SyncMap.LoadOrStore_of_some _ _ _ _ hdc, hcred, hgt, hnonce,
        hverify]
      simp
    | none =>
      refine ⟨st.DeviceRegisterCount.Store req.From 1, ?_⟩
      unfold OnRegister
      simp only [hlen, hauth, SyncMap.LoadOrStore_of_none _ _ _ hdc, hcred, hnonce, hverify]
      simp
  obtain ⟨counts, hout⟩ := key
  rw [hout]
  obtain ⟨h1, h2, h3, h4⟩ :=
    respond_true c env req req.From ⟨st.Devices, st.DeviceNonce, counts⟩
  refine ⟨h1, h2, ?_, ?_⟩
  · rw [h3]; simp
  · rw [h4]; simp

set_option maxRecDepth 100000 in
/-- C3 at the challenged example, answered with the right password. -/
theorem onRegister_verified_ok_witness :
    (OnRegister exampleConfig exampleEnv exampleChallenged exampleRight).reply =
        some ⟨200, "OK", some "123456789", some 3600, some "2024-01-01T00:00:00", none⟩ ∧
    (∃ d, (OnRegister exampleConfig exampleEnv exampleChallenged exampleRight).state.Devices.Load
        exampleId = some d) ∧
    (OnRegister exampleConfig exampleEnv exampleChallenged exampleRight).state.DeviceNonce.Load
        exampleId = none ∧
    (OnRegister exampleConfig exampleEnv exampleChallenged exampleRight).state.DeviceRegisterCount.Load
        exampleId = none :=
  onRegister_verified_ok exampleConfig exampleEnv exampleChallenged exampleRight
    ⟨exampleId, "sip:34020000002000000001@3402000000", "6e344b5f7f6083ad4c858d61ef9b8825", "MD5"⟩
    [] "11112222333344445555666677778888" (by decide) (by decide) rfl
    (fun dc h => Option.noConfusion
      ((show exampleChallenged.DeviceRegisterCount.Load exampleRight.From = none by decide).symm.trans h)) (by decide) (by decide)


/-- C5: with credentials configured, when a REGISTER is answered 200, the identical request
handled again right afterwards is answered 401: the nonce it was verified against is gone. -/
theorem onRegister_nonce_one_time (c : GB28181Config) (env env' : Env) (st : State)
    (req : Request) (r : Response)
    (hcred : ¬ (c.Username = "" ∧ c.Password = ""))
    (hr : (OnRegister c env st req).reply = some r)
    (h200 : r.StatusCode = 200) :
    ∃ r', (OnRegister c env' (OnRegister c env st req).state req).reply = some r' ∧
      r'.StatusCode = 401 := by
  have hafter : len req.From = 20 ∧
      (OnRegister c env st req).state.DeviceNonce.Load req.From = none ∧
      (OnRegister c env st req).state.DeviceRegisterCount.Load req.From = none := by
    rcases onRegister_cases c env st req with h | h | h | h
    · rw [h.2] at hr; cases hr
    · rw [h.2.2.2] at hr
      cases hr
      cases h200
    · obtain ⟨hlen, -, counts, hout⟩ := h
      obtain ⟨-, -, h3, h4⟩ :=
        respond_true c env req req.From ⟨st.Devices, st.DeviceNonce, counts⟩
      rw [hout, h3, h4]
      simp [hlen]
    · obtain ⟨-, -, counts, hout⟩ := h
      rw [hout, (respond_false c env req req.From ⟨st.Devices, st.DeviceNonce, counts⟩).1] at hr
      cases hr
      cases h200
  obtain ⟨hlen, hnonce, hcount⟩ := hafter
  rcases onRegister_cases c env' (OnRegister c env st req).state req with h | h | h | h
  · exact absurd hlen h.1
  · obtain ⟨-, -, ⟨auth, rest, dc, -, hdc, -⟩, -⟩ := h
    rw [hcount] at hdc
    cases hdc
  · obtain ⟨-, hwhy, -⟩ := h
    rcases hwhy with hno | ⟨nonce, hn⟩
    · exact absurd hno hcred
    · rw [hnonce] at hn
      cases hn
  · obtain ⟨-, -, counts, hout⟩ := h
    rw [hout, (respond_false c env' req req.From _).1]
    exact ⟨_, rfl, rfl⟩

set_option maxRecDepth 100000 in
/-- C5 at the challenged example: the right answer is accepted once, then challenged. -/
theorem onRegister_nonce_one_time_witness :
    ∃ r', (OnRegister exampleConfig exampleEnv
        (OnRegister exampleConfig exampleEnv exampleChallenged exampleRight).state
        exampleRight).reply = some r' ∧ r'.StatusCode = 401 :=
  onRegister_nonce_one_time exampleConfig exampleEnv exampleEnv exampleChallenged exampleRight
    ⟨200, "OK", some "123456789", some 3600, some "2024-01-01T00:00:00", none⟩
    (by decide) (by decide) rfl

/-- C6: when a REGISTER is answered 401, the nonce of the `WWW-Authenticate` header is the
nonce stored for the id after the call; it is the nonce stored before the call when there
was one, and the freshly drawn one otherwise; and a later 401 for the same id, handled on
the registries as this call left them, carries the same header. -/
theorem onRegister_challenge_idempotent (c : GB28181Config) (env : Env) (st : State)
    (req : Request) (r : Response)
    (hr : (OnRegister c env st req).reply = some r)
    (h401 : r.StatusCode = 401) :
    ∃ nonce,
      r.WWWAuthenticate =
        some ("Digest realm=\"" ++ c.Realm ++ "\",algorithm=MD5,nonce=\"" ++ nonce ++ "\"") ∧
      (OnRegister c env st req).state.DeviceNonce.Load req.From = some nonce ∧
      (∀ n, st.DeviceNonce.Load req.From = some n → nonce = n) ∧
      (st.DeviceNonce.Load req.From = none → nonce = env.RandNumString32) ∧
      ∀ (env' : Env) (req' : Request) (r' : Response), req'.From = req.From →
        (OnRegister c env' (OnRegister c env st req).state req').reply = some r' →
        r'.StatusCode = 401 →
        r'.WWWAuthenticate = r.WWWAuthenticate ∧
        (OnRegister c env' (OnRegister c env st req).state req').state.DeviceNonce.Load req.From
          = some nonce := by
  have shape : ∀ (env : Env) (st : State) (req : Request) (r : Response),
      (OnRegister c env st req).reply = some r → r.StatusCode = 401 →
      r.WWWAuthenticate = some (wwwAuthenticate c.Realm
          ((st.DeviceNonce.Load req.From).getD env.RandNumString32)) ∧
      (OnRegister c env st req).state.DeviceNonce.Load req.From =
          some ((st.DeviceNonce.Load req.From).getD env.RandNumString32) := by
    intro env st req r hr h401
    rcases onRegister_cases c env st req with h | h | h | h
    · rw [h.2] at hr; cases hr
    · rw [h.2.2.2] at hr
      cases hr
      cases h401
    · obtain ⟨-, -, counts, hout⟩ := h
      rw [hout, (respond_true c env req req.From ⟨st.Devices, st.DeviceNonce, counts⟩).1] at hr
      cases hr
      cases h401
    · obtain ⟨-, -, counts, hout⟩ := h
      obtain ⟨h1, h2, -, -⟩ :=
        respond_false c env req req.From ⟨st.Devices, st.DeviceNonce, counts⟩
      rw [hout]
      rw [hout, h1] at hr
      cases hr
      exact ⟨rfl, h2⟩
  obtain ⟨hw, hs⟩ := shape env st req r hr h401
  refine ⟨(st.DeviceNonce.Load req.From).getD env.RandNumString32,
    hw.trans (congrArg some (wwwAuthenticate_text _ _)), hs, ?_, ?_, ?_⟩
  · intro n hn; rw [hn]; rfl
  · intro hn; rw [hn]; rfl
  · intro env' req' r' hfrom hr' h401'
    obtain ⟨hw', hs'⟩ := shape env' _ req' r' hr' h401'
    rw [hfrom, hs] at hw' hs'
    exact ⟨hw'.trans hw.symm, hs'⟩

/-- C6 at the example: a first REGISTER without header is challenged with the drawn nonce. -/
theorem onRegister_challenge_idempotent_witness :
    ∃ nonce,
      (some "Digest realm=\"3402000000\",algorithm=MD5,nonce=\"11112222333344445555666677778888\""
        : Option String) =
        some ("Digest realm=\"" ++ exampleConfig.Realm ++ "\",algorithm=MD5,nonce=\"" ++ nonce
          ++ "\"") ∧
      (OnRegister exampleConfig exampleEnv exampleEmpty exampleBare).state.DeviceNonce.Load
        exampleBare.From = some nonce ∧
      (∀ n, exampleEmpty.DeviceNonce.Load exampleBare.From = some n → nonce = n) ∧
      (exampleEmpty.DeviceNonce.Load exampleBare.From = none →
        nonce = exampleEnv.RandNumString32) ∧
      ∀ (env' : Env) (req' : Request) (r' : Response), req'.From = exampleBare.From →
        (OnRegister exampleConfig env'
          (OnRegister exampleConfig exampleEnv exampleEmpty exampleBare).state req').reply
            = some r' →
        r'.StatusCode = 401 →
        r'.WWWAuthenticate =
          some "Digest realm=\"3402000000\",algorithm=MD5,nonce=\"11112222333344445555666677778888\"" ∧
        (OnRegister exampleConfig env'
          (OnRegister exampleConfig exampleEnv exampleEmpty exampleBare).state
            req').state.DeviceNonce.Load exampleBare.From = some nonce :=
  onRegister_challenge_idempotent exampleConfig exampleEnv exampleEmpty exampleBare
    ⟨401, "Unauthorized", none, none, none,
      some "Digest realm=\"3402000000\",algorithm=MD5,nonce=\"11112222333344445555666677778888\""⟩
    (by decide) rfl

/-- C7: when the handler does not reply 200 (no reply at all, or a reply with another
status), the device registry after the call is the registry before the call. -/
theorem onRegister_registry_unchanged (c : GB28181Config) (env : Env) (st : State)
    (req : Request)
    (hnot200 : ∀ r, (OnRegister c env st req).reply = some r → r.StatusCode ≠ 200) :
    (OnRegister c env st req).state.Devices = st.Devices := by
  rcases onRegister_cases c env st req with h | h | h | h
  · rw [h.2]
  · rw [h.2.2.2]
  · obtain ⟨-, -, counts, hout⟩ := h
    have h1 := (respond_true c env req req.From ⟨st.Devices, st.DeviceNonce, counts⟩).1
    rw [← hout] at h1
    exact absurd rfl (hnot200 _ h1)
  · obtain ⟨-, -, counts, hout⟩ := h
    rw [hout, (respond_false c env req req.From ⟨st.Devices, st.DeviceNonce, counts⟩).2.2.1]

/-- C7 at the example: the challenge of a first REGISTER leaves the registry empty. -/
theorem onRegister_registry_unchanged_witness :
    (OnRegister exampleConfig exampleEnv exampleEmpty exampleBare).state.Devices =
      exampleEmpty.Devices :=
  onRegister_registry_unchanged exampleConfig exampleEnv exampleEmpty exampleBare
    (by
      intro r hr
      have h : (OnRegister exampleConfig exampleEnv exampleEmpty exampleBare).reply =
          some ⟨401, "Unauthorized", none, none, none,
            some (wwwAuthenticate exampleConfig.Realm exampleEnv.RandNumString32)⟩ := by
        decide
      rw [h] at hr
      cases hr
      decide)


/-! ### REGISTER: failed attempts -/

theorem onRegister_failed_step (c : GB28181Config) (env : Env) (st : State) (req : Request)
    (hcred : ¬ (c.Username = "" ∧ c.Password = ""))
    (hlen : len req.From = 20)
    (hfail : failsVerification c st req = true) :
    (OnRegister c env st req).state.DeviceRegisterCount.Load req.From =
      some ((st.DeviceRegisterCount.Load req.From).getD 1 + 1) := by
  unfold failsVerification at hfail
  cases hauth : req.Authorization with
  | nil => simp [hauth] at hfail
  | cons auth rest =>
    simp only [hauth, Bool.and_eq_true] at hfail
    obtain ⟨hfree, hbad⟩ := hfail
    have hstep : ∀ counts, (OnRegister.respond c env req req.From false
        ⟨st.Devices, st.DeviceNonce, counts⟩).state.DeviceRegisterCount = counts :=
      fun counts => (respond_false c env req req.From ⟨st.Devices, st.DeviceNonce, counts⟩).2.2.2
    cases hdc : st.DeviceRegisterCount.Load req.From with
    | some dc =>
      have hgt : ¬ dc > MaxRegisterCount := by
        rw [hdc] at hfree
        simpa using hfree
      cases hn : st.DeviceNonce.Load req.From with
      | none =>
        unfold OnRegister
        simp only [hlen, hauth, SyncMap.LoadOrStore_of_some _ _ _ _ hdc, hcred, hgt, hn]
        simp [hstep]
      | some nonce =>
        have hv : ¬ auth.Verify (if auth.Username = req.From then req.From else c.Username)
            c.Password c.Realm nonce = true := by
          rw [hn] at hbad
          simpa [resolvedUsername] using hbad
        unfold OnRegister
        simp only [hlen, hauth, SyncMap.LoadOrStore_of_some _ _ _ _ hdc, hcred, hgt, hn, hv]
        simp [hstep]
    | none =>
      cases hn : st.DeviceNonce.Load req.From with
      | none =>
        unfold OnRegister
        simp only [hlen, hauth, SyncMap.LoadOrStore_of_none _ _ _ hdc, hcred, hn]
        simp [hstep]
      | some nonce =>
        have hv : ¬ auth.Verify (if auth.Username = req.From then req.From else c.Username)
            c.Password c.Realm nonce = true := by
          rw [hn] at hbad
          simpa [resolvedUsername] using hbad
        unfold OnRegister
        simp only [hlen, hauth, SyncMap.LoadOrStore_of_none _ _ _ hdc, hcred, hn, hv]
        simp [hstep]

set_option maxRecDepth 100000 in
/-- C4, counterexample: the challenged example device has no counter entry; after one
REGISTER with a wrong response, which is not locked out and fails verification, its stored
counter is 2, not 1. -/
theorem onRegister_first_failure_stores_two :
    ¬ (exampleConfig.Username = "" ∧ exampleConfig.Password = "") ∧
    len exampleWrong.From = 20 ∧
    failsVerification exampleConfig exampleChallenged exampleWrong = true ∧
    exampleChallenged.DeviceRegisterCount.Load exampleWrong.From = none ∧
    (OnRegister exampleConfig exampleEnv exampleChallenged exampleWrong).state.DeviceRegisterCount.Load
      exampleWrong.From = some 2 := by
  decide

/-- C4, amended: with credentials configured, every REGISTER for a 20-character id that is
not locked out and whose `Authorization` header fails verification raises the stored counter
of the id by one, an absent entry counting as one; so after `n ≥ 1` such requests in a row
the stored counter is the starting value (one when absent) plus `n`, which is `n + 1` when
there was no entry at the start. -/
theorem onRegister_failed_attempts_count (c : GB28181Config) (id : String) (st : State)
    (reqs : List (Env × Request))
    (hcred : ¬ (c.Username = "" ∧ c.Password = ""))
    (hlen : len id = 20)
    (hne : reqs ≠ [])
    (hfail : allFail c id st reqs = true) :
    (registerAll c st reqs).DeviceRegisterCount.Load id =
      some ((st.DeviceRegisterCount.Load id).getD 1 + (reqs.length : Int)) := by
  induction reqs generalizing st with
  | nil => exact absurd rfl hne
  | cons p rest ih =>
    obtain ⟨env, req⟩ := p
    simp only [allFail, Bool.and_eq_true, decide_eq_true_eq] at hfail
    obtain ⟨⟨hfrom, hfirst⟩, hrest⟩ := hfail
    subst hfrom
    have hstep := onRegister_failed_step c env st req hcred hlen hfirst
    by_cases hnil : rest = []
    · subst hnil
      simpa [registerAll] using hstep
    · have := ih (OnRegister c env st req).state hnil hrest
      simp only [registerAll]
      rw [this, hstep]
      simp only [Option.getD_some, List.length_cons, Nat.cast_add, Nat.cast_one]
      congr 1
      ring

set_option maxRecDepth 100000 in
/-- C4, amended, at the challenged example: two wrong answers in a row leave the counter
at 3. -/
theorem onRegister_failed_attempts_count_witness :
    (registerAll exampleConfig exampleChallenged
      [(exampleEnv, exampleWrong), (exampleEnv, exampleWrong)]).DeviceRegisterCount.Load exampleId
      = some ((exampleChallenged.DeviceRegisterCount.Load exampleId).getD 1 + ((2 : Nat) : Int)) :=
  onRegister_failed_attempts_count exampleConfig exampleId exampleChallenged
    [(exampleEnv, exampleWrong), (exampleEnv, exampleWrong)]
    (by decide) (by decide) (by simp) (by decide)

/-! ### The ban sweep -/

theorem sweep_fold_Load (l : List (Sigma (fun _ : String => Int))) (acc : SyncMap Int)
    (k : String) :
    (l.foldl (fun m e => if e.2 > MaxRegisterCount then m.Delete e.1 else m) acc).Load k =
      if ∃ e ∈ l, e.1 = k ∧ e.2 > MaxRegisterCount then none else acc.Load k := by
  induction l generalizing acc with
  | nil => simp
  | cons e l ih =>
    rw [List.foldl_cons, ih]
    by_cases hl : ∃ e' ∈ l, e'.1 = k ∧ e'.2 > MaxRegisterCount
    · have : ∃ e' ∈ e :: l, e'.1 = k ∧ e'.2 > MaxRegisterCount := by
        obtain ⟨e', he', h⟩ := hl
        exact ⟨e', List.mem_cons_of_mem _ he', h⟩
      rw [if_pos hl, if_pos this]
    · rw [if_neg hl]
      by_cases he : e.2 > MaxRegisterCount
      · rw [if_pos he]
        by_cases hk : e.1 = k
        · have : ∃ e' ∈ e :: l, e'.1 = k ∧ e'.2 > MaxRegisterCount :=
            ⟨e, List.mem_cons_self _ _, hk, he⟩
          rw [if_pos this, ← hk]
          exact SyncMap.Load_Delete_self _ _
        · have : ¬ ∃ e' ∈ e :: l, e'.1 = k ∧ e'.2 > MaxRegisterCount := by
            rintro ⟨e', he', h1, h2⟩
            rcases List.mem_cons.mp he' with rfl | hmem
            · exact hk h1
            · exact hl ⟨e', hmem, h1, h2⟩
          rw [if_neg this]
          exact SyncMap.Load_Delete_of_ne _ (fun h => hk h.symm)
      · rw [if_neg he]
        have : ¬ ∃ e' ∈ e :: l, e'.1 = k ∧ e'.2 > MaxRegisterCount := by
          rintro ⟨e', he', h1, h2⟩
          rcases List.mem_cons.mp he' with rfl | hmem
          · exact he h2
          · exact hl ⟨e', hmem, h1, h2⟩
        rw [if_neg this]

/-- C10: one pass of the ban sweep removes from the counter map exactly the entries whose
count exceeds `MaxRegisterCount` and leaves every other entry with its value; so after a
pass no stored counter exceeds `MaxRegisterCount`. -/
theorem removeBanDevice_tick_spec (counts : SyncMap Int) (id : String) :
    (removeBanDevice.tick counts).Load id =
        (match counts.Load id with
          | some dc => if dc > MaxRegisterCount then none else some dc
          | none => none) ∧
    ∀ dc, (removeBanDevice.tick counts).Load id = some dc → dc ≤ MaxRegisterCount := by
  have main : (removeBanDevice.tick counts).Load id =
      (match counts.Load id with
        | some dc => if dc > MaxRegisterCount then none else some dc
        | none => none) := by
    unfold removeBanDevice.tick
    rw [sweep_fold_Load]
    cases h : counts.Load id with
    | none => simp
    | some dc =>
      have hmem : (⟨id, dc⟩ : Sigma (fun _ : String => Int)) ∈ counts.entries :=
        AList.mem_lookup_iff.mp h
      by_cases hgt : dc > MaxRegisterCount
      · have : ∃ e ∈ counts.entries, e.1 = id ∧ e.2 > MaxRegisterCount :=
          ⟨⟨id, dc⟩, hmem, rfl, hgt⟩
        simp only [if_pos this, if_pos hgt]
      · have : ¬ ∃ e ∈ counts.entries, e.1 = id ∧ e.2 > MaxRegisterCount := by
          rintro ⟨⟨k, v⟩, he, h1, h2⟩
          simp only at h1 h2
          subst h1
          have hv : counts.Load k = some v := AList.mem_lookup_iff.mpr he
          rw [h] at hv
          cases hv
          exact hgt h2
        simp only [if_neg this, if_neg hgt]
  refine ⟨main, ?_⟩
  intro dc hdc
  rw [main] at hdc
  cases h : counts.Load id with
  | none => rw [h] at hdc; cases hdc
  | some v =>
    rw [h] at hdc
    by_cases hgt : v > MaxRegisterCount
    · simp [hgt] at hdc
    · simp only [if_neg hgt] at hdc
      cases hdc
      exact not_lt.mp hgt


/-- C10 at the example map: the device at 4 is removed, the device at 2 is kept. -/
theorem removeBanDevice_tick_spec_witness :
    ((removeBanDevice.tick exampleCounts).Load "34020000001320000001" =
        (match exampleCounts.Load "34020000001320000001" with
          | some dc => if dc > MaxRegisterCount then none else some dc
          | none => none) ∧
      ∀ dc, (removeBanDevice.tick exampleCounts).Load "34020000001320000001" = some dc →
        dc ≤ MaxRegisterCount) ∧
    (removeBanDevice.tick exampleCounts).Load "34020000001320000001" = none ∧
    (removeBanDevice.tick exampleCounts).Load "34020000001320000002" = some 2 :=
  ⟨removeBanDevice_tick_spec exampleCounts "34020000001320000001", by decide, by decide⟩

/-! ### Media ingestion -/

theorem readFull_append (ps rest : List Nat) :
    readFull ps.length (ps ++ rest) = some (ps, rest) := by
  simp [readFull]

theorem bigEndianUint16_frame (ps : List Nat) (h : ps.length < 65536) :
    bigEndianUint16 [ps.length / 256 % 256, ps.length % 256] = ps.length := by
  simp only [bigEndianUint16, List.getD_cons_zero, List.getD_cons_succ]
  omega

theorem readFull_length {n : Nat} {stream bytes rest : List Nat}
    (h : readFull n stream = some (bytes, rest)) : rest.length + n = stream.length := by
  unfold readFull at h
  split at h
  · cases h
  · cases h
    simp only [List.length_drop]
    omega

/-- The TCP loop returns on every finite stream: the fuel given by `processTcpMediaConn`
is never used up. -/
theorem tcp_loop_returns (Unmarshal : Decoder) (publishers : Publishers) :
    ∀ (fuel : Nat) (p : Packet) (conn : List Nat), conn.length < fuel →
      (processTcpMediaConn.loop Unmarshal publishers fuel p conn).isSome = true := by
  intro fuel
  induction fuel with
  | zero => intro p conn h; exact absurd h (Nat.not_lt_zero _)
  | succ fuel ih =>
    intro p conn h
    rw [processTcpMediaConn.loop]
    cases h2 : readFull 2 conn with
    | none => rfl
    | some r2 =>
      obtain ⟨dumpLen, conn1⟩ := r2
      have l2 := readFull_length h2
      cases h3 : readFull (bigEndianUint16 dumpLen) conn1 with
      | none => simp only [h3]; rfl
      | some r3 =>
        obtain ⟨ps, conn2⟩ := r3
        have l3 := readFull_length h3
        simp only [h3, Option.isSome_map']
        exact ih _ conn2 (by omega)

/-- The TCP connection handler returns on every finite stream. -/
theorem processTcpMediaConn_returns (Unmarshal : Decoder) (publishers : Publishers)
    (conn : List Nat) : (processTcpMediaConn Unmarshal publishers conn).isSome = true := by
  unfold processTcpMediaConn
  rw [Option.isSome_map']
  exact tcp_loop_returns Unmarshal publishers _ _ conn (Nat.lt_succ_self _)

/-- One iteration of the TCP loop on a complete frame. -/
theorem tcp_loop_frame (Unmarshal : Decoder) (publishers : Publishers) (fuel : Nat)
    (p : Packet) (ps rest : List Nat) (h : ps.length < 65536) :
    processTcpMediaConn.loop Unmarshal publishers (fuel + 1) p (frame ps ++ rest) =
      (processTcpMediaConn.loop Unmarshal publishers fuel (Unmarshal p ps).1 rest).map
        (fun l =>
          (if (Unmarshal p ps).2 then [Event.logError "gb28181 decode rtp error:"]
            else
              match publishers (Unmarshal p ps).1.SSRC with
              | some publisher =>
                if publisher.Err = false then
                  [Event.writeDump publisher ps, Event.PushPS publisher (Unmarshal p ps).1]
                else [Event.logInfo "gb28181 publisher not found" (Unmarshal p ps).1.SSRC]
              | none => [Event.logInfo "gb28181 publisher not found" (Unmarshal p ps).1.SSRC])
            ++ l) := by
  have h2 : readFull 2 (frame ps ++ rest) =
      some ([ps.length / 256 % 256, ps.length % 256], ps ++ rest) := by
    simp [readFull, frame]
  rw [processTcpMediaConn.loop, h2]
  simp only [bigEndianUint16_frame ps h, readFull_append]

/-- The TCP listener forwards nothing for a frame that fails RTP parsing: the iteration
only logs, and the loop goes on with the rest of the stream. -/
theorem tcp_loop_undecodable (Unmarshal : Decoder) (publishers : Publishers) (fuel : Nat)
    (p : Packet) (ps rest : List Nat) (h : ps.length < 65536)
    (herr : (Unmarshal p ps).2 = true) :
    processTcpMediaConn.loop Unmarshal publishers (fuel + 1) p (frame ps ++ rest) =
      (processTcpMediaConn.loop Unmarshal publishers fuel (Unmarshal p ps).1 rest).map
        (fun l => [Event.logError "gb28181 decode rtp error:"] ++ l) := by
  rw [tcp_loop_frame Unmarshal publishers fuel p ps rest h, herr]
  rfl

/-- The UDP listener, for a datagram that fails RTP parsing: when a live consumer is
registered for the SSRC left in the packet variable, the datagram is written to its dump
and the packet variable is pushed to it. -/
theorem udp_loop_undecodable (Unmarshal : Decoder) (publishers : Publishers)
    (bufUDP : List Nat) (p : Packet)
    (datagram : List Nat) (rest : List (List Nat)) (publisher : GBPublisher)
    (herr : (Unmarshal p (datagram.take networkBuffer)).2 = true)
    (hpub : publishers (Unmarshal p (datagram.take networkBuffer)).1.SSRC = some publisher)
    (hlive : publisher.Err = false) :
    listenMediaUDP.loop Unmarshal publishers bufUDP p (datagram :: rest) =
      [Event.logError "Decode rtp error:",
        Event.writeDump publisher (datagram.take networkBuffer),
        Event.PushPS publisher ((Unmarshal p (datagram.take networkBuffer)).1.view
          (datagram.take networkBuffer ++ bufUDP.drop (datagram.take networkBuffer).length))]
      ++ listenMediaUDP.loop Unmarshal publishers
          (datagram.take networkBuffer ++ bufUDP.drop (datagram.take networkBuffer).length)
          (Unmarshal p (datagram.take networkBuffer)).1 rest := by
  rw [listenMediaUDP.loop]
  simp [herr, hpub, hlive]

/-- C8, the UDP listener at a failing input: after a valid packet for SSRC 7, which has a
live consumer, the one-byte datagram `[0]` fails RTP parsing, and yet it is written to the
consumer's dump and the packet left over from the first datagram is pushed again. -/
theorem listenMediaUDP_forwards_undecodable :
    (rtpUnmarshal (rtpUnmarshal Packet.zero (examplePacket 7)).1 [0]).2 = true ∧
    listenMediaUDP rtpUnmarshal examplePublishers [examplePacket 7, [0]] =
      [Event.writeDump ⟨"live/7", false⟩ (examplePacket 7),
        Event.PushPS ⟨"live/7", false⟩ ⟨7, 1, 5, 96, false, [170, 187], 12⟩,
        Event.logError "Decode rtp error:",
        Event.writeDump ⟨"live/7", false⟩ [0],
        Event.PushPS ⟨"live/7", false⟩ ⟨7, 1, 5, 96, false, [170, 187], 12⟩] := by
  decide

theorem tcp_loop_frames (Unmarshal : Decoder) (publishers : Publishers)
    (frames : List (List Nat)) (tail : List Nat)
    (hsize : ∀ ps ∈ frames, ps.length < 65536)
    (htail : tail.length < 2 ∨
      ∃ hi lo rest, tail = hi :: lo :: rest ∧ rest.length < bigEndianUint16 [hi, lo]) :
    ∀ (fuel : Nat) (p : Packet),
      (frames.flatMap frame ++ tail).length < fuel →
      (∀ r ∈ decodeSeq Unmarshal p frames,
        r.2 = false ∧ (publishers r.1.SSRC).map GBPublisher.Err = some false) →
      ∃ body,
        processTcpMediaConn.loop Unmarshal publishers fuel p (frames.flatMap frame ++ tail)
          = some body ∧
        pushes body = (decodeSeq Unmarshal p frames).filterMap
          (fun r => (publishers r.1.SSRC).map (fun publisher => (publisher, r.1))) ∧
        dumps body = (List.zip frames (decodeSeq Unmarshal p frames)).filterMap
          (fun fr => (publishers fr.2.1.SSRC).map (fun publisher => (publisher, fr.1))) ∧
        (pushes body).length = frames.length ∧
        Event.Close ∉ body := by
  induction frames with
  | nil =>
    intro fuel p hfuel _
    cases fuel with
    | zero => exact absurd hfuel (Nat.not_lt_zero _)
    | succ fuel =>
      refine ⟨[], ?_, rfl, rfl, rfl, by simp⟩
      simp only [List.flatMap_nil, List.nil_append]
      rcases htail with hshort | ⟨hi, lo, rest, rfl, hrest⟩
      · have : readFull 2 tail = none := by simp [readFull, hshort]
        rw [processTcpMediaConn.loop, this]
      · have h2 : readFull 2 (hi :: lo :: rest) = some ([hi, lo], rest) := by
          simp [readFull]
        have h3 : readFull (bigEndianUint16 [hi, lo]) rest = none := by
          simp [readFull, hrest]
        rw [processTcpMediaConn.loop, h2]
        simp only [h3]
  | cons ps fs ih =>
    intro fuel p hfuel hvalid
    cases fuel with
    | zero => exact absurd hfuel (Nat.not_lt_zero _)
    | succ fuel =>
      have hps : ps.length < 65536 := hsize ps (List.mem_cons_self _ _)
      have hfs : ∀ q ∈ fs, q.length < 65536 := fun q hq => hsize q (List.mem_cons_of_mem _ hq)
      have hhead := hvalid (Unmarshal p ps) (by simp [decodeSeq])
      have htl : ∀ r ∈ decodeSeq Unmarshal (Unmarshal p ps).1 fs,
          r.2 = false ∧ (publishers r.1.SSRC).map GBPublisher.Err = some false :=
        fun r hr => hvalid r (by simp [decodeSeq, hr])
      have hlen : (fs.flatMap frame ++ tail).length < fuel := by
        simp only [List.flatMap_cons, List.append_assoc, List.length_append, frame,
          List.length_cons] at hfuel
        simp only [List.length_append]
        omega
      obtain ⟨body, hbody, hpush, hdump, hcount, hclose⟩ :=
        ih hfs fuel (Unmarshal p ps).1 hlen htl
      obtain ⟨hok, hpub⟩ := hhead
      cases hp : publishers (Unmarshal p ps).1.SSRC with
      | none => simp [hp] at hpub
      | some publisher =>
        have hlive : publisher.Err = false := by simpa [hp] using hpub
        refine ⟨[Event.writeDump publisher ps, Event.PushPS publisher (Unmarshal p ps).1]
          ++ body, ?_, ?_, ?_, ?_, ?_⟩
        · rw [List.flatMap_cons, List.append_assoc, tcp_loop_frame _ _ _ _ _ _ hps, hbody]
          simp [hok, hp, hlive]
        · simp [pushes, decodeSeq, hp, hpush]
        · simp [dumps, decodeSeq, hp, hdump]
        · simp [pushes, hcount]
        · simpa using hclose

/-- C9: on a TCP stream made of complete frames, each of which decodes and has a live
consumer registered for its SSRC, followed by a truncated frame or nothing, the connection
handler makes exactly one push per complete frame, in stream order, to the consumer
registered for the SSRC of that frame, with the packet decoded from it; nothing is pushed
for the truncated frame, and the handler ends by closing the connection. -/
theorem processTcpMediaConn_frames (Unmarshal : Decoder) (publishers : Publishers)
    (frames : List (List Nat)) (tail : List Nat)
    (hsize : ∀ ps ∈ frames, ps.length < 65536)
    (htail : tail.length < 2 ∨
      ∃ hi lo rest, tail = hi :: lo :: rest ∧ rest.length < bigEndianUint16 [hi, lo])
    (hvalid : ∀ r ∈ decodeSeq Unmarshal Packet.zero frames,
      r.2 = false ∧ (publishers r.1.SSRC).map GBPublisher.Err = some false) :
    ∃ body,
      processTcpMediaConn Unmarshal publishers (frames.flatMap frame ++ tail)
        = some (body ++ [Event.Close]) ∧
      Event.Close ∉ body ∧
      (pushes body).length = frames.length ∧
      pushes body = (decodeSeq Unmarshal Packet.zero frames).filterMap
        (fun r => (publishers r.1.SSRC).map (fun publisher => (publisher, r.1))) ∧
      dumps body = (List.zip frames (decodeSeq Unmarshal Packet.zero frames)).filterMap
        (fun fr => (publishers fr.2.1.SSRC).map (fun publisher => (publisher, fr.1))) := by
  obtain ⟨body, hbody, hpush, hdump, hcount, hclose⟩ :=
    tcp_loop_frames Unmarshal publishers frames tail hsize htail
      ((frames.flatMap frame ++ tail).length + 1) Packet.zero (Nat.lt_succ_self _) hvalid
  refine ⟨body, ?_, hclose, hcount, hpush, hdump⟩
  unfold processTcpMediaConn
  rw [hbody]
  rfl


/-- C9 at an example stream: two frames for SSRC 7, then a frame announcing 9 bytes of which
one arrives. -/
theorem processTcpMediaConn_frames_witness :
    ∃ body,
      processTcpMediaConn rtpUnmarshal examplePublishers
        ([examplePacket 7, examplePacket 7].flatMap frame ++ [0, 9, 1])
        = some (body ++ [Event.Close]) ∧
      Event.Close ∉ body ∧
      (pushes body).length = [examplePacket 7, examplePacket 7].length ∧
      pushes body = (decodeSeq rtpUnmarshal Packet.zero
          [examplePacket 7, examplePacket 7]).filterMap
        (fun r => (examplePublishers r.1.SSRC).map (fun publisher => (publisher, r.1))) ∧
      dumps body = (List.zip [examplePacket 7, examplePacket 7]
          (decodeSeq rtpUnmarshal Packet.zero [examplePacket 7, examplePacket 7])).filterMap
        (fun fr => (examplePublishers fr.2.1.SSRC).map (fun publisher => (publisher, fr.1))) :=
  processTcpMediaConn_frames rtpUnmarshal examplePublishers
    [examplePacket 7, examplePacket 7] [0, 9, 1] (by decide)
    (Or.inr ⟨0, 9, [1], rfl, by decide⟩) (by decide)

end GB28181
